import Mathlib

/-!
Shallow embedding of `src/app/page.tsx` (the `DevnetRugPullDemo` component):
the demo-scam transaction pipeline `simulateScamFlow`, the React state it
mutates (`busy`, `txSig`, `step`, …), the button-level submit trigger, the
module-load recipient-address configuration, and the derived explorer URL.

External collaborators (the wallet provider object and the devnet
`Connection`) are modelled as an environment of possibly-hanging, possibly
throwing calls; the pipeline body is a pure function from that environment
to the ordered list of effects (state setters, external calls, alerts) it
performs, together with a flag saying whether the async function ran to
completion (an await that never resolves stops the trace and skips the
`finally` block, exactly as in JavaScript).
-/

namespace RugPullDemo

/-- The `step` React state of `DevnetRugPullDemo`
(`"intro" | "form" | "processing" | "error" | "refundFunnel" | "done"`). -/
inductive DemoStep
  | intro
  | form
  | processing
  | error
  | refundFunnel
  | done
deriving DecidableEq, Repr

/-- The result of `connection.getLatestBlockhash("confirmed")`:
`{ blockhash, lastValidBlockHeight }`. -/
structure LedgerRef where
  blockhash : String
  lastValidBlockHeight : Nat
deriving DecidableEq, Repr

/-- One `SystemProgram.transfer({ fromPubkey, toPubkey, lamports })`
instruction. Public keys are carried as their base58 strings. -/
structure TransferInstruction where
  fromPubkey : String
  toPubkey : String
  lamports : Nat
deriving DecidableEq, Repr

/-- `new Transaction({ recentBlockhash, feePayer }).add(...)`. -/
structure Transaction where
  recentBlockhash : String
  feePayer : String
  instructions : List TransferInstruction
deriving DecidableEq, Repr

/-- The value returned by `provider.signAndSendTransaction(tx)`: either a
bare signature string or an object carrying a `signature` field
(line 97 normalises via `sig?.signature || sig`). -/
inductive SigResult
  | strSig (s : String)
  | objSig (signature : String)
deriving DecidableEq, Repr

/-- Line 97: `const signature = sig?.signature || sig;` — take the
`signature` field when present, otherwise the value itself (property
access on a bare string yields `undefined`, so `||` falls through). -/
def normalizeSig : SigResult → String
  | .strSig s => s
  | .objSig sg => sg

/-- Outcome of awaiting one external async call: the promise may never
resolve, reject with an error message, or resolve with a value. -/
inductive Async (α : Type)
  | hangs
  | throws (msg : String)
  | returns (val : α)
deriving DecidableEq, Repr

/-- The external world one invocation of `simulateScamFlow` interacts
with: `(window as any)?.solana` and the module-level devnet `Connection`. -/
structure ProviderEnv where
  /-- `provider?.publicKey` as a base58 string; `none` when the provider
  is absent or exposes no key. -/
  providerPublicKey : Option String
  /-- `connection.getLatestBlockhash("confirmed")`. -/
  getLatestBlockhash : Async LedgerRef
  /-- `provider.signAndSendTransaction(tx)`. -/
  signAndSendTransaction : Transaction → Async SigResult
  /-- `connection.confirmTransaction({ signature, blockhash,
  lastValidBlockHeight }, "confirmed")`. -/
  confirmTransaction : String → String → Nat → Async Unit

/-- One observable effect of the pipeline, in program order: a React state
setter, an external call, or console/alert output. `fetchBlockhash`
records a resolved blockhash fetch together with the reference it
returned; `signSubmit` and `confirmTx` record the call being issued with
its arguments. -/
inductive Event
  | setBusy (b : Bool)
  | setStep (st : DemoStep)
  | setTxSig (sg : Option String)
  | fetchBlockhash (ref : LedgerRef)
  | signSubmit (tx : Transaction)
  | confirmTx (signature : String) (blockhash : String) (lastValidBlockHeight : Nat)
  | consoleError (msg : String)
  | alertMsg (msg : String)
  | sleep (ms : Nat)
deriving DecidableEq, Repr

/-- The React state of the component (the `useState` hooks). -/
structure AppState where
  walletAvailable : Bool
  publicKey : Option String
  connecting : Bool
  busy : Bool
  txSig : Option String
  step : DemoStep
  showDetails : Bool
  showRedFlags : Bool
deriving DecidableEq, Repr

/-- Effect of one event on the React state; external calls and console or
alert output do not touch it. -/
def applyEvent (s : AppState) : Event → AppState
  | .setBusy b => { s with busy := b }
  | .setStep st => { s with step := st }
  | .setTxSig sg => { s with txSig := sg }
  | _ => s

def applyEvents (s : AppState) (es : List Event) : AppState :=
  es.foldl applyEvent s

/-- `alert((e as Error).message || "Transaction failed")`: JavaScript `||`
replaces an empty message by the fallback. -/
def jsOrMsg (m : String) : String :=
  if m = "" then "Transaction failed" else m

/-- The `catch` block of `simulateScamFlow` (lines 104–107) followed by
the `finally` block (line 109), for a thrown error with message `m`:
`console.error(e); alert(...); setStep("form");` then `setBusy(false)`. -/
def catchEvents (m : String) : List Event :=
  [.consoleError m, .alertMsg (jsOrMsg m), .setStep .form, .setBusy false]

/-- Line 90: `const lamports = 1_000_000;` (0.001 SOL). -/
def DEMO_LAMPORTS : Nat := 1000000

/-- Lines 92–94: build the transfer transaction from the fetched
reference, the connected public key and the configured recipient. -/
def buildTx (fromPubkey scammerAddr : String) (ref : LedgerRef) : Transaction :=
  { recentBlockhash := ref.blockhash
    feePayer := fromPubkey
    instructions := [{ fromPubkey := fromPubkey, toPubkey := scammerAddr,
                       lamports := DEMO_LAMPORTS }] }

/-- Lines 81–111, the body of `simulateScamFlow`, as the ordered list of
effects it performs in the environment `env` with configured recipient
`scammerAddr`, paired with `true` when the async function ran to
completion and `false` when some await never resolved (in which case no
further effect — in particular neither the `catch` nor the `finally`
block — ever runs). -/
def simulateScamFlow (env : ProviderEnv) (scammerAddr : String) :
    List Event × Bool :=
  let pre : List Event := [.setBusy true, .setStep .processing]
  match env.providerPublicKey with
  | none => (pre ++ catchEvents "Wallet not connected.", true)
  | some fromPubkey =>
    match env.getLatestBlockhash with
    | .hangs => (pre, false)
    | .throws m => (pre ++ catchEvents m, true)
    | .returns ref =>
      let tx := buildTx fromPubkey scammerAddr ref
      let pre := pre ++ [.fetchBlockhash ref, .signSubmit tx]
      match env.signAndSendTransaction tx with
      | .hangs => (pre, false)
      | .throws m => (pre ++ catchEvents m, true)
      | .returns sigres =>
        let signature := normalizeSig sigres
        let pre := pre ++ [.confirmTx signature ref.blockhash ref.lastValidBlockHeight]
        match env.confirmTransaction signature ref.blockhash ref.lastValidBlockHeight with
        | .hangs => (pre, false)
        | .throws m => (pre ++ catchEvents m, true)
        | .returns _ =>
          (pre ++ [.setTxSig (some signature), .sleep 1200,
                   .setStep .error, .setBusy false], true)

/-- Run one invocation of `simulateScamFlow` from state `s`: the state
after all performed effects, the effect trace, and the completion flag. -/
def runScamFlow (env : ProviderEnv) (scammerAddr : String) (s : AppState) :
    AppState × List Event × Bool :=
  let r := simulateScamFlow env scammerAddr
  (applyEvents s r.1, r.1, r.2)

/-- JavaScript truthiness of the `publicKey : string | null` state:
`null` and the empty string are falsy. -/
def jsTruthyStr : Option String → Bool
  | none => false
  | some s => !(s = "")

/-- Line 173: the Create Token button has
`disabled={!publicKey || busy}`. -/
def submitDisabled (s : AppState) : Bool :=
  !jsTruthyStr s.publicKey || s.busy

/-- Clicking the Create Token button (line 173): a disabled button fires
no handler; otherwise the click runs `simulateScamFlow`. -/
def submitClick (env : ProviderEnv) (scammerAddr : String) (s : AppState) :
    AppState × List Event × Bool :=
  if submitDisabled s then (s, [], true) else runScamFlow env scammerAddr s

/-- Line 153: the Start button, `onClick={() => setStep("form")}`. -/
def startDemo (s : AppState) : AppState := { s with step := .form }

/-- Line 195: the Get a Refund button,
`onClick={() => setStep("refundFunnel")}`. -/
def requestRefund (s : AppState) : AppState := { s with step := .refundFunnel }

/-- Line 208: the Finish Demo button, `onClick={() => setStep("done")}`. -/
def finishDemo (s : AppState) : AppState := { s with step := .done }

/-- Lines 53–56: the memoised
`txSig ? ("https://explorer.solana.com/tx/" + txSig + "?cluster=devnet") : null`;
an empty `txSig` string is falsy in JavaScript. -/
def EXPLORER_TX_BASE : String := "https://explorer.solana.com/tx/"

def EXPLORER_CLUSTER_QUERY : String := "?cluster="

def EXPLORER_CLUSTER : String := "devnet"

def explorerTxUrl (txSig : Option String) : Option String :=
  match txSig with
  | none => none
  | some sg =>
    if sg = "" then none
    else some (EXPLORER_TX_BASE ++ sg ++ (EXPLORER_CLUSTER_QUERY ++ EXPLORER_CLUSTER))

/-- Parser for the explorer link shape
`<explorer-base>/tx/<signature>?cluster=<fixed-test-cluster>`: strips the
fixed prefix and the fixed cluster query suffix and recovers the
signature in between together with the cluster tag. Written from the
round-trip requirement stated in the spec, to be compared with
`explorerTxUrl`. -/
def parseExplorerTxUrl (u : String) : Option (String × String) :=
  if EXPLORER_TX_BASE.data.isPrefixOf u.data then
    let rest := u.data.drop EXPLORER_TX_BASE.data.length
    let q := (EXPLORER_CLUSTER_QUERY ++ EXPLORER_CLUSTER).data
    if q.length ≤ rest.length ∧ rest.drop (rest.length - q.length) = q then
      some (String.mk (rest.take (rest.length - q.length)), EXPLORER_CLUSTER)
    else none
  else none

/-- Line 28. -/
def DEFAULT_ADDR : String := "9xXFaJ6tDa3s8o1y6g8c2o1j9nKkz9g9m5A2wVvQ3Z9T"

/-- JavaScript `ENV_ADDR || DEFAULT_ADDR` (line 29): an absent or empty
environment string falls back to the default. -/
def jsOrStr (a : Option String) (b : String) : String :=
  match a with
  | none => b
  | some s => if s = "" then b else s

def BASE58_ALPHABET : String :=
  "123456789ABCDEFGHJKLMNPQRSTUVWXYZabcdefghijkmnopqrstuvwxyz"

def base58DigitValue (c : Char) : Option Nat :=
  BASE58_ALPHABET.data.indexOf? c

/-- Big-endian base58 value of a character list; `none` on a character
outside the alphabet. -/
def decodeBase58Acc (acc : Nat) : List Char → Option Nat
  | [] => some acc
  | c :: cs =>
    match base58DigitValue c with
    | none => none
    | some d => decodeBase58Acc (acc * 58 + d) cs

/-- Number of bytes in the big-endian representation of `v` (0 bytes for
0), computed with explicit fuel. -/
def byteLenAux : Nat → Nat → Nat
  | 0, _ => 0
  | fuel + 1, v => if v = 0 then 0 else byteLenAux fuel (v / 256) + 1

def byteLen (v : Nat) : Nat := byteLenAux v v

/-- Byte length of the base58 decoding of `s` (each leading `1` is a zero
byte), `none` when `s` is not base58. -/
def decodedByteLength (s : String) : Option Nat :=
  match decodeBase58Acc 0 s.data with
  | none => none
  | some v => some ((s.data.takeWhile (fun c => c = '1')).length + byteLen v)

/-- Modelled from the spec: the `PublicKey` constructor invoked at line 29
is library code outside `src/`; per the spec the recipient address is
"validated as a well-formed address at load time" and "invalid values are
a fatal configuration error". Well-formedness of an address string:
base58 text decoding to exactly 32 bytes. -/
def mkPublicKey (s : String) : Except String String :=
  if decodedByteLength s = some 32 then .ok s
  else .error "Invalid public key input"

/-- Lines 27–29: the module-load computation of `DEMO_SCAMMER_ADDRESS`
from the optional environment string; an exception here is fatal to the
module load. -/
def DEMO_SCAMMER_ADDRESS (envAddr : Option String) : Except String String :=
  mkPublicKey (jsOrStr envAddr DEFAULT_ADDR)

/-- Holds exactly on the environments in which `simulateScamFlow` runs
its full success path: a present provider key, a resolved blockhash
fetch, a resolved sign-and-submit, and a resolved confirmation. -/
def successRun (env : ProviderEnv) (scammerAddr : String) : Bool :=
  match env.providerPublicKey with
  | none => false
  | some fromPubkey =>
    match env.getLatestBlockhash with
    | .returns ref =>
      match env.signAndSendTransaction (buildTx fromPubkey scammerAddr ref) with
      | .returns sigres =>
        match env.confirmTransaction (normalizeSig sigres) ref.blockhash
              ref.lastValidBlockHeight with
        | .returns _ => true
        | _ => false
      | _ => false
    | _ => false

/-! ### Trace shapes of the pipeline, one per exit path -/

/-- Events common to every invocation: `setBusy(true); setStep("processing")`. -/
def preEvents : List Event := [.setBusy true, .setStep .processing]

/-- Events up to and including the sign-and-submit call. -/
def fetchEvents (pk a : String) (ref : LedgerRef) : List Event :=
  preEvents ++ [.fetchBlockhash ref, .signSubmit (buildTx pk a ref)]

/-- Events up to and including the confirmation call. -/
def confirmEvents (pk a : String) (ref : LedgerRef) (sigres : SigResult) :
    List Event :=
  fetchEvents pk a ref ++
    [.confirmTx (normalizeSig sigres) ref.blockhash ref.lastValidBlockHeight]

/-- The full trace of a run in which every external call resolves. -/
def successTrace (pk a : String) (ref : LedgerRef) (sigres : SigResult) :
    List Event :=
  confirmEvents pk a ref sigres ++
    [.setTxSig (some (normalizeSig sigres)), .sleep 1200,
     .setStep .error, .setBusy false]

/-! ### Concrete inputs shared by the witness theorems -/

def witState : AppState :=
  { walletAvailable := true, publicKey := some "PK", connecting := false,
    busy := false, txSig := none, step := .form,
    showDetails := false, showRedFlags := false }

def witEnvOk : ProviderEnv :=
  { providerPublicKey := some "PK"
    getLatestBlockhash := .returns ⟨"BH", 100⟩
    signAndSendTransaction := fun _ => .returns (.strSig "SIG1")
    confirmTransaction := fun _ _ _ => .returns () }

def witEnvReject : ProviderEnv :=
  { providerPublicKey := some "PK"
    getLatestBlockhash := .returns ⟨"BH", 100⟩
    signAndSendTransaction := fun _ => .throws "User rejected the request."
    confirmTransaction := fun _ _ _ => .returns () }

def witEnvConfirmHangs : ProviderEnv :=
  { providerPublicKey := some "PK"
    getLatestBlockhash := .returns ⟨"BH", 100⟩
    signAndSendTransaction := fun _ => .returns (.strSig "SIG1")
    confirmTransaction := fun _ _ _ => .hangs }

def witEnvConfirmExpired : ProviderEnv :=
  { providerPublicKey := some "PK"
    getLatestBlockhash := .returns ⟨"BH", 100⟩
    signAndSendTransaction := fun _ => .returns (.strSig "SIG1")
    confirmTransaction := fun _ _ _ =>
      .throws "TransactionExpiredBlockheightExceededError: block height exceeded" }

/-! ### Equations for each exit path of the pipeline -/

lemma scamFlow_noWallet (env : ProviderEnv) (a : String)
    (hpk : env.providerPublicKey = none) :
    simulateScamFlow env a =
      (preEvents ++ catchEvents "Wallet not connected.", true) := by
  simp only [simulateScamFlow, hpk, preEvents]

lemma scamFlow_bhHangs (env : ProviderEnv) (a pk : String)
    (hpk : env.providerPublicKey = some pk)
    (hbh : env.getLatestBlockhash = .hangs) :
    simulateScamFlow env a = (preEvents, false) := by
  simp only [simulateScamFlow, hpk, hbh, preEvents]

lemma scamFlow_bhThrows (env : ProviderEnv) (a pk m : String)
    (hpk : env.providerPublicKey = some pk)
    (hbh : env.getLatestBlockhash = .throws m) :
    simulateScamFlow env a = (preEvents ++ catchEvents m, true) := by
  simp only [simulateScamFlow, hpk, hbh, preEvents]

lemma scamFlow_signHangs (env : ProviderEnv) (a pk : String) (ref : LedgerRef)
    (hpk : env.providerPublicKey = some pk)
    (hbh : env.getLatestBlockhash = .returns ref)
    (hsig : env.signAndSendTransaction (buildTx pk a ref) = .hangs) :
    simulateScamFlow env a = (fetchEvents pk a ref, false) := by
  simp only [simulateScamFlow, hpk, hbh, hsig, fetchEvents, preEvents]

lemma scamFlow_signThrows (env : ProviderEnv) (a pk m : String) (ref : LedgerRef)
    (hpk : env.providerPublicKey = some pk)
    (hbh : env.getLatestBlockhash = .returns ref)
    (hsig : env.signAndSendTransaction (buildTx pk a ref) = .throws m) :
    simulateScamFlow env a = (fetchEvents pk a ref ++ catchEvents m, true) := by
  simp only [simulateScamFlow, hpk, hbh, hsig, fetchEvents, preEvents]

lemma scamFlow_confirmHangs (env : ProviderEnv) (a pk : String)
    (ref : LedgerRef) (sigres : SigResult)
    (hpk : env.providerPublicKey = some pk)
    (hbh : env.getLatestBlockhash = .returns ref)
    (hsig : env.signAndSendTransaction (buildTx pk a ref) = .returns sigres)
    (hconf : env.confirmTransaction (normalizeSig sigres) ref.blockhash
        ref.lastValidBlockHeight = .hangs) :
    simulateScamFlow env a = (confirmEvents pk a ref sigres, false) := by
  simp only [simulateScamFlow, hpk, hbh, hsig, hconf, confirmEvents,
    fetchEvents, preEvents, List.append_assoc, List.cons_append, List.nil_append]

lemma scamFlow_confirmThrows (env : ProviderEnv) (a pk m : String)
    (ref : LedgerRef) (sigres : SigResult)
    (hpk : env.providerPublicKey = some pk)
    (hbh : env.getLatestBlockhash = .returns ref)
    (hsig : env.signAndSendTransaction (buildTx pk a ref) = .returns sigres)
    (hconf : env.confirmTransaction (normalizeSig sigres) ref.blockhash
        ref.lastValidBlockHeight = .throws m) :
    simulateScamFlow env a =
      (confirmEvents pk a ref sigres ++ catchEvents m, true) := by
  simp only [simulateScamFlow, hpk, hbh, hsig, hconf, confirmEvents,
    fetchEvents, preEvents, List.append_assoc, List.cons_append, List.nil_append]

lemma scamFlow_success (env : ProviderEnv) (a pk : String)
    (ref : LedgerRef) (sigres : SigResult)
    (hpk : env.providerPublicKey = some pk)
    (hbh : env.getLatestBlockhash = .returns ref)
    (hsig : env.signAndSendTransaction (buildTx pk a ref) = .returns sigres)
    (hconf : env.confirmTransaction (normalizeSig sigres) ref.blockhash
        ref.lastValidBlockHeight = .returns ()) :
    simulateScamFlow env a = (successTrace pk a ref sigres, true) := by
  simp only [simulateScamFlow, hpk, hbh, hsig, hconf, successTrace,
    confirmEvents, fetchEvents, preEvents, List.append_assoc,
    List.cons_append, List.nil_append]

/-- Exhaustive case analysis of one pipeline invocation: the eight exit
paths, each with its exact trace, completion flag, and `successRun`
value. -/
lemma scamFlow_cases (env : ProviderEnv) (a : String) :
    (env.providerPublicKey = none
      ∧ simulateScamFlow env a = (preEvents ++ catchEvents "Wallet not connected.", true)
      ∧ successRun env a = false)
  ∨ (∃ pk, env.providerPublicKey = some pk
      ∧ env.getLatestBlockhash = .hangs
      ∧ simulateScamFlow env a = (preEvents, false)
      ∧ successRun env a = false)
  ∨ (∃ pk m, env.providerPublicKey = some pk
      ∧ env.getLatestBlockhash = .throws m
      ∧ simulateScamFlow env a = (preEvents ++ catchEvents m, true)
      ∧ successRun env a = false)
  ∨ (∃ pk ref, env.providerPublicKey = some pk
      ∧ env.getLatestBlockhash = .returns ref
      ∧ env.signAndSendTransaction (buildTx pk a ref) = .hangs
      ∧ simulateScamFlow env a = (fetchEvents pk a ref, false)
      ∧ successRun env a = false)
  ∨ (∃ pk ref m, env.providerPublicKey = some pk
      ∧ env.getLatestBlockhash = .returns ref
      ∧ env.signAndSendTransaction (buildTx pk a ref) = .throws m
      ∧ simulateScamFlow env a = (fetchEvents pk a ref ++ catchEvents m, true)
      ∧ successRun env a = false)
  ∨ (∃ pk ref sigres, env.providerPublicKey = some pk
      ∧ env.getLatestBlockhash = .returns ref
      ∧ env.signAndSendTransaction (buildTx pk a ref) = .returns sigres
      ∧ env.confirmTransaction (normalizeSig sigres) ref.blockhash
          ref.lastValidBlockHeight = .hangs
      ∧ simulateScamFlow env a = (confirmEvents pk a ref sigres, false)
      ∧ successRun env a = false)
  ∨ (∃ pk ref sigres m, env.providerPublicKey = some pk
      ∧ env.getLatestBlockhash = .returns ref
      ∧ env.signAndSendTransaction (buildTx pk a ref) = .returns sigres
      ∧ env.confirmTransaction (normalizeSig sigres) ref.blockhash
          ref.lastValidBlockHeight = .throws m
      ∧ simulateScamFlow env a = (confirmEvents pk a ref sigres ++ catchEvents m, true)
      ∧ successRun env a = false)
  ∨ (∃ pk ref sigres, env.providerPublicKey = some pk
      ∧ env.getLatestBlockhash = .returns ref
      ∧ env.signAndSendTransaction (buildTx pk a ref) = .returns sigres
      ∧ env.confirmTransaction (normalizeSig sigres) ref.blockhash
          ref.lastValidBlockHeight = .returns ()
      ∧ simulateScamFlow env a = (successTrace pk a ref sigres, true)
      ∧ successRun env a = true) := by
  rcases hpk : env.providerPublicKey with _ | pk
  · exact Or.inl ⟨rfl, scamFlow_noWallet env a hpk, by simp only [successRun, hpk]⟩
  · rcases hbh : env.getLatestBlockhash with _ | m | ref
    · exact Or.inr (Or.inl ⟨pk, rfl, rfl, scamFlow_bhHangs env a pk hpk hbh,
        by simp only [successRun, hpk, hbh]⟩)
    · exact Or.inr (Or.inr (Or.inl ⟨pk, m, rfl, rfl,
        scamFlow_bhThrows env a pk m hpk hbh, by simp only [successRun, hpk, hbh]⟩))
    · rcases hsig : env.signAndSendTransaction (buildTx pk a ref) with _ | m | sigres
      · exact Or.inr (Or.inr (Or.inr (Or.inl ⟨pk, ref, rfl, rfl, hsig,
          scamFlow_signHangs env a pk ref hpk hbh hsig,
          by simp only [successRun, hpk, hbh, hsig]⟩)))
      · exact Or.inr (Or.inr (Or.inr (Or.inr (Or.inl ⟨pk, ref, m, rfl, rfl, hsig,
          scamFlow_signThrows env a pk m ref hpk hbh hsig,
          by simp only [successRun, hpk, hbh, hsig]⟩))))
      · rcases hconf : env.confirmTransaction (normalizeSig sigres) ref.blockhash
            ref.lastValidBlockHeight with _ | m | u
        · exact Or.inr (Or.inr (Or.inr (Or.inr (Or.inr (Or.inl
            ⟨pk, ref, sigres, rfl, rfl, hsig, hconf,
             scamFlow_confirmHangs env a pk ref sigres hpk hbh hsig hconf,
             by simp only [successRun, hpk, hbh, hsig, hconf]⟩)))))
        · exact Or.inr (Or.inr (Or.inr (Or.inr (Or.inr (Or.inr (Or.inl
            ⟨pk, ref, sigres, m, rfl, rfl, hsig, hconf,
             scamFlow_confirmThrows env a pk m ref sigres hpk hbh hsig hconf,
             by simp only [successRun, hpk, hbh, hsig, hconf]⟩))))))
        · exact Or.inr (Or.inr (Or.inr (Or.inr (Or.inr (Or.inr (Or.inr
            ⟨pk, ref, sigres, rfl, rfl, hsig, hconf,
             scamFlow_success env a pk ref sigres hpk hbh hsig hconf,
             by simp only [successRun, hpk, hbh, hsig, hconf]⟩))))))

lemma append_catch_last (pre : List Event) (m : String) :
    ∃ l, pre ++ catchEvents m = l ++ [Event.setBusy false] :=
  ⟨pre ++ [.consoleError m, .alertMsg (jsOrMsg m), .setStep .form],
    by simp [catchEvents, List.append_assoc]⟩

lemma jsOrMsg_ne_empty (m : String) : jsOrMsg m ≠ "" := by
  unfold jsOrMsg
  split
  · decide
  · assumption

/-- C2: when the wallet is not connected (the `publicKey` state is null,
hence falsy), the Create Token button is disabled, so triggering submit
fires no handler: the pipeline is not invoked (empty effect trace, hence
no blockhash fetch and no sign-and-submit call) and the step is
unchanged — in particular it stays Form. -/
theorem claim_C2 (env : ProviderEnv) (a : String) (s : AppState)
    (h : jsTruthyStr s.publicKey = false) :
    submitClick env a s = (s, [], true)
      ∧ (submitClick env a s).2.1 = []
      ∧ (submitClick env a s).1.step = s.step := by
  have hd : submitDisabled s = true := by
    simp [submitDisabled, h]
  refine ⟨?_, ?_, ?_⟩ <;> simp [submitClick, hd]

theorem claim_C2_witness :
    submitClick witEnvOk "ADDR" { witState with publicKey := none }
      = ({ witState with publicKey := none }, [], true) :=
  (claim_C2 witEnvOk "ADDR" { witState with publicKey := none } rfl).1

/-- C9: every raw invocation of `simulateScamFlow` sets the step to
Processing before checking `provider?.publicKey`; with no connected
wallet the run transiently shows Processing (after the first two effects)
and then reverts to Form through the catch path, performing no blockhash
fetch and no sign-and-submit call — it is not a pure no-op on the step. -/
theorem claim_C9 (env : ProviderEnv) (a : String) (s : AppState)
    (hpk : env.providerPublicKey = none) (_hs : s.step = .form) :
    simulateScamFlow env a =
      ([.setBusy true, .setStep .processing,
        .consoleError "Wallet not connected.",
        .alertMsg "Wallet not connected.",
        .setStep .form, .setBusy false], true)
      ∧ (applyEvents s ((simulateScamFlow env a).1.take 2)).step = .processing
      ∧ (runScamFlow env a s).1.step = .form
      ∧ (∀ ref, Event.fetchBlockhash ref ∉ (simulateScamFlow env a).1)
      ∧ (∀ tx, Event.signSubmit tx ∉ (simulateScamFlow env a).1) := by
  have htr := scamFlow_noWallet env a hpk
  have htr2 : simulateScamFlow env a =
      ([.setBusy true, .setStep .processing,
        .consoleError "Wallet not connected.",
        .alertMsg "Wallet not connected.",
        .setStep .form, .setBusy false], true) := by
    rw [htr]; rfl
  refine ⟨htr2, ?_, ?_, ?_, ?_⟩ <;>
    simp [htr2, runScamFlow, applyEvents, applyEvent]

theorem claim_C9_witness :
    (runScamFlow { witEnvOk with providerPublicKey := none } "ADDR" witState).1.step
      = DemoStep.form :=
  (claim_C9 { witEnvOk with providerPublicKey := none } "ADDR" witState rfl rfl).2.2.1

/-- C3: mutual exclusion via the `busy` flag. (1) Every pipeline
invocation begins with `setBusy(true)` before any other effect; (2) while
`busy` is set, a submit trigger is a no-op (the button is disabled), so
no second invocation can start; (3) on every completed run — success or
caught failure — the final state has `busy = false`; (4) on every
completed run the very last effect is `setBusy(false)` (the `finally`
block), so the flag is released on all exit paths. -/
theorem claim_C3 :
    (∀ (env : ProviderEnv) (a : String), ∃ rest,
        (simulateScamFlow env a).1
          = Event.setBusy true :: Event.setStep .processing :: rest)
    ∧ (∀ (env : ProviderEnv) (a : String) (s : AppState), s.busy = true →
        submitClick env a s = (s, [], true))
    ∧ (∀ (env : ProviderEnv) (a : String) (s : AppState),
        (runScamFlow env a s).2.2 = true → (runScamFlow env a s).1.busy = false)
    ∧ (∀ (env : ProviderEnv) (a : String),
        (simulateScamFlow env a).2 = true →
        ∃ l, (simulateScamFlow env a).1 = l ++ [Event.setBusy false]) := by
  refine ⟨?_, ?_, ?_, ?_⟩
  · intro env a
    rcases scamFlow_cases env a with
      ⟨_, htr, _⟩ | ⟨pk, _, _, htr, _⟩ | ⟨pk, m, _, _, htr, _⟩ |
      ⟨pk, ref, _, _, _, htr, _⟩ | ⟨pk, ref, m, _, _, _, htr, _⟩ |
      ⟨pk, ref, sigres, _, _, _, _, htr, _⟩ |
      ⟨pk, ref, sigres, m, _, _, _, _, htr, _⟩ |
      ⟨pk, ref, sigres, _, _, _, _, htr, _⟩ <;>
      rw [htr] <;> exact ⟨_, rfl⟩
  · intro env a s hb
    have hd : submitDisabled s = true := by
      simp [submitDisabled, hb]
    simp [submitClick, hd]
  · intro env a s
    rcases scamFlow_cases env a with
      ⟨_, htr, _⟩ | ⟨pk, _, _, htr, _⟩ | ⟨pk, m, _, _, htr, _⟩ |
      ⟨pk, ref, _, _, _, htr, _⟩ | ⟨pk, ref, m, _, _, _, htr, _⟩ |
      ⟨pk, ref, sigres, _, _, _, _, htr, _⟩ |
      ⟨pk, ref, sigres, m, _, _, _, _, htr, _⟩ |
      ⟨pk, ref, sigres, _, _, _, _, htr, _⟩ <;>
      simp [runScamFlow, htr, applyEvents, applyEvent, preEvents, catchEvents,
        fetchEvents, confirmEvents, successTrace]
  · intro env a
    rcases scamFlow_cases env a with
      ⟨_, htr, _⟩ | ⟨pk, _, _, htr, _⟩ | ⟨pk, m, _, _, htr, _⟩ |
      ⟨pk, ref, _, _, _, htr, _⟩ | ⟨pk, ref, m, _, _, _, htr, _⟩ |
      ⟨pk, ref, sigres, _, _, _, _, htr, _⟩ |
      ⟨pk, ref, sigres, m, _, _, _, _, htr, _⟩ |
      ⟨pk, ref, sigres, _, _, _, _, htr, _⟩ <;>
      rw [htr] <;> intro hc
    · exact append_catch_last _ _
    · cases hc
    · exact append_catch_last _ _
    · cases hc
    · exact append_catch_last _ _
    · cases hc
    · exact append_catch_last _ _
    · exact ⟨confirmEvents pk a ref sigres ++
        [.setTxSig (some (normalizeSig sigres)), .sleep 1200, .setStep .error],
        by simp [successTrace, List.append_assoc]⟩

theorem claim_C3_witness :
    submitClick witEnvOk "ADDR" { witState with busy := true }
      = ({ witState with busy := true }, [], true) :=
  claim_C3.2.1 witEnvOk "ADDR" { witState with busy := true } rfl

/-- C5: on every run of the pipeline that completes, the `busy` flag is
cleared; the scripted success path ends in Error, and every genuine
failure (missing wallet key, blockhash-fetch error, wallet rejection,
network error, confirmation error) is caught at the pipeline boundary
(the single try/catch), reverts the step to Form, and surfaces a
non-empty alert message — no completed run drops an error silently or
ends outside a valid step. -/
theorem claim_C5 (env : ProviderEnv) (a : String) (s : AppState)
    (hc : (runScamFlow env a s).2.2 = true) :
    (runScamFlow env a s).1.busy = false
      ∧ (successRun env a = true → (runScamFlow env a s).1.step = .error)
      ∧ (successRun env a = false →
          (runScamFlow env a s).1.step = .form
            ∧ ∃ m, m ≠ "" ∧ Event.alertMsg m ∈ (runScamFlow env a s).2.1) := by
  rcases scamFlow_cases env a with
    ⟨_, htr, hsr⟩ | ⟨pk, _, _, htr, hsr⟩ | ⟨pk, m, _, _, htr, hsr⟩ |
    ⟨pk, ref, _, _, _, htr, hsr⟩ | ⟨pk, ref, m, _, _, _, htr, hsr⟩ |
    ⟨pk, ref, sigres, _, _, _, _, htr, hsr⟩ |
    ⟨pk, ref, sigres, m, _, _, _, _, htr, hsr⟩ |
    ⟨pk, ref, sigres, _, _, _, _, htr, hsr⟩
  · refine ⟨?_, ?_, ?_⟩ <;>
      simp [runScamFlow, htr, hsr, applyEvents, applyEvent, preEvents,
        catchEvents]
    exact fun hh => jsOrMsg_ne_empty _ hh
  · rw [runScamFlow] at hc; rw [htr] at hc; cases hc
  · refine ⟨?_, ?_, ?_⟩ <;>
      simp [runScamFlow, htr, hsr, applyEvents, applyEvent, preEvents,
        catchEvents]
    exact fun hh => jsOrMsg_ne_empty _ hh
  · rw [runScamFlow] at hc; rw [htr] at hc; cases hc
  · refine ⟨?_, ?_, ?_⟩ <;>
      simp [runScamFlow, htr, hsr, applyEvents, applyEvent, preEvents,
        fetchEvents, catchEvents]
    exact fun hh => jsOrMsg_ne_empty _ hh
  · rw [runScamFlow] at hc; rw [htr] at hc; cases hc
  · refine ⟨?_, ?_, ?_⟩ <;>
      simp [runScamFlow, htr, hsr, applyEvents, applyEvent, preEvents,
        fetchEvents, confirmEvents, catchEvents]
    exact fun hh => jsOrMsg_ne_empty _ hh
  · refine ⟨?_, ?_, ?_⟩ <;>
      simp [runScamFlow, htr, hsr, applyEvents, applyEvent, preEvents,
        fetchEvents, confirmEvents, successTrace, catchEvents]

theorem claim_C5_witness :
    (runScamFlow witEnvReject "ADDR" witState).1.step = DemoStep.form
      ∧ ∃ m, m ≠ ""
          ∧ Event.alertMsg m ∈ (runScamFlow witEnvReject "ADDR" witState).2.1 :=
  (claim_C5 witEnvReject "ADDR" witState rfl).2.2 rfl

/-- C10: `txSig` is written only by the success path. On every run that
does not reach a successful confirmation, the final `txSig` equals the
initial one (a failed retry keeps a stale signature from an earlier
success); a non-null `txSig` can never become null again; and any
`setTxSig` effect in a trace happens in a full-success run and writes a
non-null value. -/
theorem claim_C10 (env : ProviderEnv) (a : String) (s : AppState) :
    (successRun env a = false → (runScamFlow env a s).1.txSig = s.txSig)
      ∧ (s.txSig ≠ none → (runScamFlow env a s).1.txSig ≠ none)
      ∧ (∀ sg, Event.setTxSig sg ∈ (runScamFlow env a s).2.1 →
          successRun env a = true ∧ sg ≠ none) := by
  rcases scamFlow_cases env a with
    ⟨_, htr, hsr⟩ | ⟨pk, _, _, htr, hsr⟩ | ⟨pk, m, _, _, htr, hsr⟩ |
    ⟨pk, ref, _, _, _, htr, hsr⟩ | ⟨pk, ref, m, _, _, _, htr, hsr⟩ |
    ⟨pk, ref, sigres, _, _, _, _, htr, hsr⟩ |
    ⟨pk, ref, sigres, m, _, _, _, _, htr, hsr⟩ |
    ⟨pk, ref, sigres, _, _, _, _, htr, hsr⟩ <;>
    refine ⟨?_, ?_, ?_⟩ <;>
    simp [runScamFlow, htr, hsr, applyEvents, applyEvent, preEvents,
      catchEvents, fetchEvents, confirmEvents, successTrace]

theorem claim_C10_witness :
    (runScamFlow witEnvReject "ADDR" { witState with txSig := some "OLD" }).1.txSig
      = some "OLD" :=
  (claim_C10 witEnvReject "ADDR" { witState with txSig := some "OLD" }).1 rfl

/-- C4: in every invocation trace, a sign-and-submit call is immediately
preceded by a blockhash fetch performed in that same invocation, and the
submitted transaction carries exactly the fetched blockhash; a
confirmation call is awaited against the blockhash and validity height of
that same fetched reference; and an invocation fetches at most one
reference — so a reference is never reused across two Processing
entries. -/
theorem claim_C4 (env : ProviderEnv) (a : String) :
    (∀ tx, Event.signSubmit tx ∈ (simulateScamFlow env a).1 →
        ∃ ref, env.getLatestBlockhash = .returns ref
          ∧ (simulateScamFlow env a).1.take 4
              = [.setBusy true, .setStep .processing,
                 .fetchBlockhash ref, .signSubmit tx]
          ∧ tx.recentBlockhash = ref.blockhash)
    ∧ (∀ sg bh h, Event.confirmTx sg bh h ∈ (simulateScamFlow env a).1 →
        ∃ ref, env.getLatestBlockhash = .returns ref
          ∧ Event.fetchBlockhash ref ∈ (simulateScamFlow env a).1
          ∧ bh = ref.blockhash ∧ h = ref.lastValidBlockHeight)
    ∧ (∀ r1 r2, Event.fetchBlockhash r1 ∈ (simulateScamFlow env a).1 →
        Event.fetchBlockhash r2 ∈ (simulateScamFlow env a).1 → r1 = r2) := by
  rcases scamFlow_cases env a with
    ⟨_, htr, _⟩ | ⟨pk, _, _, htr, _⟩ | ⟨pk, m, _, _, htr, _⟩ |
    ⟨pk, ref, _, hbh, _, htr, _⟩ | ⟨pk, ref, m, _, hbh, _, htr, _⟩ |
    ⟨pk, ref, sigres, _, hbh, _, _, htr, _⟩ |
    ⟨pk, ref, sigres, m, _, hbh, _, _, htr, _⟩ |
    ⟨pk, ref, sigres, _, hbh, _, _, htr, _⟩
  · refine ⟨?_, ?_, ?_⟩ <;>
      simp [htr, preEvents, catchEvents]
  · refine ⟨?_, ?_, ?_⟩ <;>
      simp [htr, preEvents]
  · refine ⟨?_, ?_, ?_⟩ <;>
      simp [htr, preEvents, catchEvents]
  · refine ⟨?_, ?_, ?_⟩
    · intro tx hmem
      have htx : tx = buildTx pk a ref := by
        simpa [htr, fetchEvents, preEvents] using hmem
      subst htx
      exact ⟨ref, hbh, by simp [htr, fetchEvents, preEvents], rfl⟩
    · intro sg bh h hmem
      simp [htr, fetchEvents, preEvents] at hmem
    · intro r1 r2 h1 h2
      simp [htr, fetchEvents, preEvents] at h1 h2
      rw [h1, h2]
  · refine ⟨?_, ?_, ?_⟩
    · intro tx hmem
      have htx : tx = buildTx pk a ref := by
        simpa [htr, fetchEvents, preEvents, catchEvents] using hmem
      subst htx
      exact ⟨ref, hbh, by simp [htr, fetchEvents, preEvents], rfl⟩
    · intro sg bh h hmem
      simp [htr, fetchEvents, preEvents, catchEvents] at hmem
    · intro r1 r2 h1 h2
      simp [htr, fetchEvents, preEvents, catchEvents] at h1 h2
      rw [h1, h2]
  · refine ⟨?_, ?_, ?_⟩
    · intro tx hmem
      have htx : tx = buildTx pk a ref := by
        simpa [htr, confirmEvents, fetchEvents, preEvents] using hmem
      subst htx
      exact ⟨ref, hbh, by simp [htr, confirmEvents, fetchEvents, preEvents], rfl⟩
    · intro sg bh h hmem
      simp [htr, confirmEvents, fetchEvents, preEvents] at hmem
      exact ⟨ref, hbh, by simp [htr, confirmEvents, fetchEvents, preEvents],
        hmem.2.1, hmem.2.2⟩
    · intro r1 r2 h1 h2
      simp [htr, confirmEvents, fetchEvents, preEvents] at h1 h2
      rw [h1, h2]
  · refine ⟨?_, ?_, ?_⟩
    · intro tx hmem
      have htx : tx = buildTx pk a ref := by
        simpa [htr, confirmEvents, fetchEvents, preEvents, catchEvents] using hmem
      subst htx
      exact ⟨ref, hbh, by simp [htr, confirmEvents, fetchEvents, preEvents], rfl⟩
    · intro sg bh h hmem
      simp [htr, confirmEvents, fetchEvents, preEvents, catchEvents] at hmem
      exact ⟨ref, hbh, by simp [htr, confirmEvents, fetchEvents, preEvents],
        hmem.2.1, hmem.2.2⟩
    · intro r1 r2 h1 h2
      simp [htr, confirmEvents, fetchEvents, preEvents, catchEvents] at h1 h2
      rw [h1, h2]
  · refine ⟨?_, ?_, ?_⟩
    · intro tx hmem
      have htx : tx = buildTx pk a ref := by
        simpa [htr, successTrace, confirmEvents, fetchEvents, preEvents]
          using hmem
      subst htx
      exact ⟨ref, hbh,
        by simp [htr, successTrace, confirmEvents, fetchEvents, preEvents], rfl⟩
    · intro sg bh h hmem
      simp [htr, successTrace, confirmEvents, fetchEvents, preEvents] at hmem
      exact ⟨ref, hbh,
        by simp [htr, successTrace, confirmEvents, fetchEvents, preEvents],
        hmem.2.1, hmem.2.2⟩
    · intro r1 r2 h1 h2
      simp [htr, successTrace, confirmEvents, fetchEvents, preEvents] at h1 h2
      rw [h1, h2]

theorem claim_C4_witness :
    ∃ ref, witEnvOk.getLatestBlockhash = Async.returns ref
      ∧ (simulateScamFlow witEnvOk "ADDR").1.take 4
          = [Event.setBusy true, Event.setStep .processing,
             Event.fetchBlockhash ref,
             Event.signSubmit (buildTx "PK" "ADDR" ⟨"BH", 100⟩)]
      ∧ (buildTx "PK" "ADDR" ⟨"BH", 100⟩).recentBlockhash = ref.blockhash :=
  (claim_C4 witEnvOk "ADDR").1 (buildTx "PK" "ADDR" ⟨"BH", 100⟩) (by decide)

/-- C1: on every run in which the sign-and-submit call returns a
signature and its confirmation resolves, the run completes with the step
moved from Processing to Error (the scripted fake failure); `txSig` holds
that signature in the final state, every trace prefix whose state already
shows Error also already shows that signature (so `txSig` is non-null
before the step becomes Error), and the signature is untouched by the
subsequent RefundFunnel and Done transitions. -/
theorem claim_C1 (env : ProviderEnv) (a : String) (s : AppState) (pk : String)
    (ref : LedgerRef) (sigres : SigResult)
    (hs : s.step = .form)
    (hpk : env.providerPublicKey = some pk)
    (hbh : env.getLatestBlockhash = .returns ref)
    (hsig : env.signAndSendTransaction (buildTx pk a ref) = .returns sigres)
    (hconf : env.confirmTransaction (normalizeSig sigres) ref.blockhash
        ref.lastValidBlockHeight = .returns ()) :
    (runScamFlow env a s).2.2 = true
      ∧ (runScamFlow env a s).1.step = .error
      ∧ (runScamFlow env a s).1.txSig = some (normalizeSig sigres)
      ∧ (∀ n, (applyEvents s ((runScamFlow env a s).2.1.take n)).step = .error →
          (applyEvents s ((runScamFlow env a s).2.1.take n)).txSig
            = some (normalizeSig sigres))
      ∧ (requestRefund (runScamFlow env a s).1).step = .refundFunnel
      ∧ (requestRefund (runScamFlow env a s).1).txSig = some (normalizeSig sigres)
      ∧ (finishDemo (requestRefund (runScamFlow env a s).1)).step = .done
      ∧ (finishDemo (requestRefund (runScamFlow env a s).1)).txSig
          = some (normalizeSig sigres) := by
  have htr := scamFlow_success env a pk ref sigres hpk hbh hsig hconf
  refine ⟨?_, ?_, ?_, ?_, ?_, ?_, ?_, ?_⟩
  · simp [runScamFlow, htr]
  · simp [runScamFlow, htr, applyEvents, applyEvent, successTrace,
      confirmEvents, fetchEvents, preEvents]
  · simp [runScamFlow, htr, applyEvents, applyEvent, successTrace,
      confirmEvents, fetchEvents, preEvents]
  · intro n
    rcases n with _|_|_|_|_|_|_|_|_|n <;> intro hn <;>
      simp [runScamFlow, htr, successTrace, confirmEvents, fetchEvents,
        preEvents, applyEvents, applyEvent, hs, List.take_succ_cons] at hn ⊢
  · simp [runScamFlow, htr, applyEvents, applyEvent, successTrace,
      confirmEvents, fetchEvents, preEvents, requestRefund]
  · simp [runScamFlow, htr, applyEvents, applyEvent, successTrace,
      confirmEvents, fetchEvents, preEvents, requestRefund]
  · simp [runScamFlow, htr, applyEvents, applyEvent, successTrace,
      confirmEvents, fetchEvents, preEvents, requestRefund, finishDemo]
  · simp [runScamFlow, htr, applyEvents, applyEvent, successTrace,
      confirmEvents, fetchEvents, preEvents, requestRefund, finishDemo]

theorem claim_C1_witness :
    (runScamFlow witEnvOk "ADDR" witState).1.step = DemoStep.error
      ∧ (runScamFlow witEnvOk "ADDR" witState).1.txSig = some "SIG1" := by
  have h := claim_C1 witEnvOk "ADDR" witState "PK" ⟨"BH", 100⟩
    (.strSig "SIG1") rfl rfl rfl rfl rfl
  exact ⟨h.2.1, h.2.2.1⟩

/-- C6 (amended): the pipeline imposes no confirmation timeout of its
own. If the confirmation call rejects (for instance with the ledger
client's own expiry error), the run completes: the error is caught, its
message — distinct whenever the underlying error message differs from a
signature rejection's — is surfaced, and the step reverts to Form with
`busy` cleared. But if the confirmation await never resolves, the run
never completes: the step stays Processing with `busy` held, and no
timeout outcome is ever produced. -/
theorem claim_C6 (env : ProviderEnv) (a : String) (s : AppState) (pk : String)
    (ref : LedgerRef) (sigres : SigResult)
    (hpk : env.providerPublicKey = some pk)
    (hbh : env.getLatestBlockhash = .returns ref)
    (hsig : env.signAndSendTransaction (buildTx pk a ref) = .returns sigres) :
    (∀ m, env.confirmTransaction (normalizeSig sigres) ref.blockhash
          ref.lastValidBlockHeight = .throws m →
        (runScamFlow env a s).2.2 = true
          ∧ (runScamFlow env a s).1.step = .form
          ∧ (runScamFlow env a s).1.busy = false
          ∧ Event.alertMsg (jsOrMsg m) ∈ (runScamFlow env a s).2.1
          ∧ jsOrMsg m ≠ "")
      ∧ (env.confirmTransaction (normalizeSig sigres) ref.blockhash
            ref.lastValidBlockHeight = .hangs →
          (runScamFlow env a s).2.2 = false
            ∧ (runScamFlow env a s).1.step = .processing
            ∧ (runScamFlow env a s).1.busy = true
            ∧ ∀ m, Event.alertMsg m ∉ (runScamFlow env a s).2.1) := by
  constructor
  · intro m hconf
    have htr := scamFlow_confirmThrows env a pk m ref sigres hpk hbh hsig hconf
    refine ⟨?_, ?_, ?_, ?_, jsOrMsg_ne_empty m⟩ <;>
      simp [runScamFlow, htr, applyEvents, applyEvent, confirmEvents,
        fetchEvents, preEvents, catchEvents]
  · intro hconf
    have htr := scamFlow_confirmHangs env a pk ref sigres hpk hbh hsig hconf
    refine ⟨?_, ?_, ?_, ?_⟩ <;>
      simp [runScamFlow, htr, applyEvents, applyEvent, confirmEvents,
        fetchEvents, preEvents]

theorem claim_C6_counterexample :
    (runScamFlow witEnvConfirmHangs "ADDR" witState).2.2 = false
      ∧ (runScamFlow witEnvConfirmHangs "ADDR" witState).1.step
          = DemoStep.processing
      ∧ (runScamFlow witEnvConfirmHangs "ADDR" witState).1.busy = true
      ∧ (runScamFlow witEnvConfirmHangs "ADDR" witState).2.1
          = confirmEvents "PK" "ADDR" ⟨"BH", 100⟩ (.strSig "SIG1") :=
  ⟨rfl, rfl, rfl, rfl⟩

theorem claim_C6_witness :
    (runScamFlow witEnvConfirmExpired "ADDR" witState).1.step = DemoStep.form
      ∧ Event.alertMsg
          (jsOrMsg "TransactionExpiredBlockheightExceededError: block height exceeded")
          ∈ (runScamFlow witEnvConfirmExpired "ADDR" witState).2.1 := by
  have h := (claim_C6 witEnvConfirmExpired "ADDR" witState "PK" ⟨"BH", 100⟩
      (.strSig "SIG1") rfl rfl rfl).1
      "TransactionExpiredBlockheightExceededError: block height exceeded" rfl
  exact ⟨h.2.1, h.2.2.2.1⟩

/-- C7: every submitted transaction transfers exactly 1,000,000 lamports
(0.001 SOL) to the configured recipient address with the connected public
key as fee payer; the configured address (environment override if
present and non-empty, else the built-in default) is validated as a
well-formed base58 32-byte address when the module loads, and an invalid
value makes that load-time computation a fatal error. -/
theorem claim_C7 (envAddr : Option String) (addr : String) (env : ProviderEnv)
    (haddr : DEMO_SCAMMER_ADDRESS envAddr = .ok addr) :
    (∀ tx, Event.signSubmit tx ∈ (simulateScamFlow env addr).1 →
        env.providerPublicKey = some tx.feePayer
          ∧ tx.instructions
              = [{ fromPubkey := tx.feePayer, toPubkey := addr,
                   lamports := 1000000 }])
      ∧ decodedByteLength addr = some 32
      ∧ (∀ bad : Option String,
          decodedByteLength (jsOrStr bad DEFAULT_ADDR) ≠ some 32 →
          DEMO_SCAMMER_ADDRESS bad = .error "Invalid public key input") := by
  refine ⟨?_, ?_, ?_⟩
  · intro tx hmem
    rcases scamFlow_cases env addr with
      ⟨_, htr, _⟩ | ⟨pk, _, _, htr, _⟩ | ⟨pk, m, _, _, htr, _⟩ |
      ⟨pk, ref, hpk, _, _, htr, _⟩ | ⟨pk, ref, m, hpk, _, _, htr, _⟩ |
      ⟨pk, ref, sigres, hpk, _, _, _, htr, _⟩ |
      ⟨pk, ref, sigres, m, hpk, _, _, _, htr, _⟩ |
      ⟨pk, ref, sigres, hpk, _, _, _, htr, _⟩
    · simp [htr, preEvents, catchEvents] at hmem
    · simp [htr, preEvents] at hmem
    · simp [htr, preEvents, catchEvents] at hmem
    · have htx : tx = buildTx pk addr ref := by
        simpa [htr, fetchEvents, preEvents] using hmem
      subst htx
      exact ⟨hpk, rfl⟩
    · have htx : tx = buildTx pk addr ref := by
        simpa [htr, fetchEvents, preEvents, catchEvents] using hmem
      subst htx
      exact ⟨hpk, rfl⟩
    · have htx : tx = buildTx pk addr ref := by
        simpa [htr, confirmEvents, fetchEvents, preEvents] using hmem
      subst htx
      exact ⟨hpk, rfl⟩
    · have htx : tx = buildTx pk addr ref := by
        simpa [htr, confirmEvents, fetchEvents, preEvents, catchEvents]
          using hmem
      subst htx
      exact ⟨hpk, rfl⟩
    · have htx : tx = buildTx pk addr ref := by
        simpa [htr, successTrace, confirmEvents, fetchEvents, preEvents]
          using hmem
      subst htx
      exact ⟨hpk, rfl⟩
  · have hb : mkPublicKey (jsOrStr envAddr DEFAULT_ADDR) = .ok addr := haddr
    unfold mkPublicKey at hb
    split at hb
    case isTrue heq =>
      injection hb with h2
      subst h2
      exact heq
    case isFalse =>
      cases hb
  · intro bad hbad
    unfold DEMO_SCAMMER_ADDRESS mkPublicKey
    rw [if_neg hbad]

theorem claim_C7_witness :
    witEnvOk.providerPublicKey
        = some (buildTx "PK" DEFAULT_ADDR ⟨"BH", 100⟩).feePayer
      ∧ (buildTx "PK" DEFAULT_ADDR ⟨"BH", 100⟩).instructions
          = [{ fromPubkey := (buildTx "PK" DEFAULT_ADDR ⟨"BH", 100⟩).feePayer,
               toPubkey := DEFAULT_ADDR, lamports := 1000000 }]
      ∧ decodedByteLength DEFAULT_ADDR = some 32 := by
  have h := claim_C7 none DEFAULT_ADDR witEnvOk rfl
  have hm : Event.signSubmit (buildTx "PK" DEFAULT_ADDR ⟨"BH", 100⟩)
      ∈ (simulateScamFlow witEnvOk DEFAULT_ADDR).1 := by decide
  have h2 := h.1 _ hm
  exact ⟨h2.1, h2.2, h.2.1⟩

/-- C8: the explorer link is a pure function of the signature with the
fixed shape base-url `/tx/` signature `?cluster=devnet`; parsing the
derived link recovers exactly the signature and the fixed cluster tag
(the hypothesis excludes only the empty string, which JavaScript
truthiness sends to the null link instead). -/
theorem claim_C8 (sg : String) (h : sg ≠ "") :
    Option.bind (explorerTxUrl (some sg)) parseExplorerTxUrl
      = some (sg, EXPLORER_CLUSTER) := by
  obtain ⟨cs⟩ := sg
  have hurl : explorerTxUrl (some (String.mk cs))
      = some (EXPLORER_TX_BASE ++ String.mk cs
          ++ (EXPLORER_CLUSTER_QUERY ++ EXPLORER_CLUSTER)) := by
    simp [explorerTxUrl, h]
  rw [hurl]
  show parseExplorerTxUrl _ = _
  have hdata : (EXPLORER_TX_BASE ++ String.mk cs
        ++ (EXPLORER_CLUSTER_QUERY ++ EXPLORER_CLUSTER)).data
      = EXPLORER_TX_BASE.data
          ++ (cs ++ (EXPLORER_CLUSTER_QUERY ++ EXPLORER_CLUSTER).data) := by
    simp [String.data_append, List.append_assoc]
  rw [parseExplorerTxUrl, hdata]
  have hpre : EXPLORER_TX_BASE.data.isPrefixOf
      (EXPLORER_TX_BASE.data
        ++ (cs ++ (EXPLORER_CLUSTER_QUERY ++ EXPLORER_CLUSTER).data)) = true := by
    rw [List.isPrefixOf_iff_prefix]
    exact List.prefix_append _ _
  rw [if_pos hpre, List.drop_left]
  have hq : (cs ++ (EXPLORER_CLUSTER_QUERY ++ EXPLORER_CLUSTER).data).length
        - (EXPLORER_CLUSTER_QUERY ++ EXPLORER_CLUSTER).data.length
      = cs.length := by
    rw [List.length_append, Nat.add_sub_cancel]
  have hcond : (EXPLORER_CLUSTER_QUERY ++ EXPLORER_CLUSTER).data.length
        ≤ (cs ++ (EXPLORER_CLUSTER_QUERY ++ EXPLORER_CLUSTER).data).length
      ∧ (cs ++ (EXPLORER_CLUSTER_QUERY ++ EXPLORER_CLUSTER).data).drop
          ((cs ++ (EXPLORER_CLUSTER_QUERY ++ EXPLORER_CLUSTER).data).length
            - (EXPLORER_CLUSTER_QUERY ++ EXPLORER_CLUSTER).data.length)
        = (EXPLORER_CLUSTER_QUERY ++ EXPLORER_CLUSTER).data := by
    constructor
    · rw [List.length_append]
      exact Nat.le_add_left _ _
    · rw [hq, List.drop_left]
  rw [if_pos hcond, hq, List.take_left]

theorem claim_C8_witness :
    Option.bind (explorerTxUrl (some "SIG1")) parseExplorerTxUrl
      = some ("SIG1", EXPLORER_CLUSTER) :=
  claim_C8 "SIG1" (by decide)

end RugPullDemo
